import Mathlib

/-!
Shallow embedding of the privileged RPC server of the singularity runtime
(internal/pkg/runtime/engine/singularity/rpc/server/server_linux.go) and of
the image-build engine's container monitor
(internal/pkg/runtime/engine/imgbuild/process_linux.go).

Kernel calls (mount, mkdir, setns, pivot_root, chroot, chdir, wait4, kill,
open, loop attach, group-database lookup) are modelled by oracles recording,
for each call site, whether and how the kernel call would succeed.  Each Go
function becomes a Lean function from its arguments, the oracle and the
relevant process state to an output record holding the final state, a trace
of the kernel-visible events it performed, and the values it returned.
-/

/-- Go error values as observed at the RPC boundary: either a raw kernel
(syscall) error carrying an errno, or an error produced by message formatting
(fmt.Errorf) carrying its context message. -/
inductive GoErr where
  | sys (errno : Nat)
  | errorf (msg : String)
deriving DecidableEq, Repr

/-- Whether an error value was produced by fmt.Errorf-style wrapping with a
context message (true) or is a raw kernel error propagated as-is (false). -/
def GoErr.isErrorf : GoErr → Bool
  | .sys _ => false
  | .errorf _ => true

/-! ## Mount -/

/-- Arguments of the Mount RPC (args.MountArgs). -/
structure MountArgs where
  source : String
  target : String
  filesystem : String
  mountflags : Nat
  data : String
deriving DecidableEq, Repr

/-- Oracle for the single syscall.Mount call: none means the kernel mount
succeeded, some e means it failed with errno e. -/
structure MountOracle where
  mountErrno : Option Nat
deriving DecidableEq, Repr

/-- Output of the Mount RPC: the value stored through the mountErr reply
pointer, and the method's own return value. -/
structure MountOut where
  mountErr : Option GoErr
  ret : Option GoErr
deriving DecidableEq, Repr

/-- Methods.Mount: runs syscall.Mount via mainthread.Execute (modelled as
direct execution, since Execute runs the closure synchronously on the pinned
main thread), stores the kernel result through the mountErr reply pointer
unchanged, and itself returns nil. -/
def Mount (o : MountOracle) (a : MountArgs) : MountOut :=
  { mountErr := o.mountErrno.map GoErr.sys, ret := none }

/-! ## Mkdir -/

/-- Arguments of the Mkdir RPC (args.MkdirArgs). -/
structure MkdirArgs where
  path : String
  perm : Nat
deriving DecidableEq, Repr

/-- Oracle for the os.Mkdir call inside Mkdir: whether directory creation
succeeds. -/
structure MkdirOracle where
  mkdirOk : Bool
deriving DecidableEq, Repr

/-- Filesystem-related process state touched by Mkdir: the process's file
creation mode mask, and the directories created so far with the permission
bits they were created with. -/
structure FsState where
  umask : Nat
  dirs : List (String × Nat)
deriving DecidableEq, Repr

/-- The twelve mode bits a umask can affect. -/
def permBits : Nat := 0o7777

/-- Kernel rule for the effective creation mode: requested mode with the
bits of the ambient umask cleared. -/
def applyUmask (perm umask : Nat) : Nat :=
  perm &&& (permBits ^^^ (umask &&& permBits))

/-- Output of the Mkdir RPC. -/
structure MkdirOut where
  state : FsState
  ret : Option GoErr
deriving DecidableEq, Repr

/-- Methods.Mkdir: inside mainthread.Execute it saves the current umask while
setting it to 0, calls os.Mkdir(path, perm), then restores the saved umask;
the restore is straight-line code after the mkdir, so it runs on both mkdir
outcomes. -/
def Mkdir (o : MkdirOracle) (a : MkdirArgs) (s : FsState) : MkdirOut :=
  let oldmask := s.umask
  let dirs1 : List (String × Nat) :=
    if o.mkdirOk then (a.path, applyUmask a.perm 0) :: s.dirs else s.dirs
  let ret : Option GoErr := if o.mkdirOk then none else some (GoErr.sys 17)
  { state := { umask := oldmask, dirs := dirs1 }, ret := ret }

/-! ## Decrypt -/

/-- Arguments of the Decrypt RPC (args.CryptArgs). -/
structure CryptArgs where
  key : String
  loopdev : String
  masterPid : Int
deriving DecidableEq, Repr

/-- Oracle for the kernel-facing calls inside Decrypt: whether the setns into
the master process's (host) IPC namespace succeeds, the name and error pair
returned by cryptDev.Open, and whether the setns back into the process's own
IPC namespace succeeds. -/
structure DecryptOracle where
  enterHostOk : Bool
  openName : String
  openErr : Option GoErr
  enterSelfOk : Bool
deriving DecidableEq, Repr

/-- Kernel-visible events of a Decrypt call, in order: a setns join of the
master process's IPC namespace, the cryptsetup unlock attempt, and a setns
join of the process's own (container) IPC namespace. -/
inductive CryptEvent where
  | enterHostNs
  | unlockAttempt
  | enterSelfNs
deriving DecidableEq, Repr

/-- Output of the Decrypt RPC: the IPC namespace the executing thread is left
in, the event trace, the value assigned through the reply pointer (none when
the function returned without assigning it), and the return value. -/
structure DecryptOut where
  threadNs : Nat
  events : List CryptEvent
  reply : Option String
  ret : Option GoErr
deriving DecidableEq, Repr

/-- Methods.Decrypt.  hostNs is the IPC namespace of the master process,
procNs the process's own namespace as recorded in /proc (the main thread was
never moved, so joining os.Getpid()'s IPC namespace lands there), ns0 the
namespace of the executing thread at entry.  With masterPid > 0 the thread
joins hostNs (early error return if that setns fails), runs the unlock, then
unconditionally attempts to rejoin procNs (early error return if that setns
fails); only after that is the reply assigned and the unlock error
returned.  With masterPid ≤ 0 no namespace call is made at all. -/
def Decrypt (hostNs procNs : Nat) (o : DecryptOracle) (a : CryptArgs)
    (ns0 : Nat) : DecryptOut :=
  if a.masterPid > 0 then
    if o.enterHostOk = false then
      { threadNs := ns0, events := [CryptEvent.enterHostNs], reply := none,
        ret := some (GoErr.errorf "while joining host IPC namespace") }
    else if o.enterSelfOk = false then
      { threadNs := hostNs,
        events := [CryptEvent.enterHostNs, CryptEvent.unlockAttempt,
                   CryptEvent.enterSelfNs],
        reply := none,
        ret := some (GoErr.errorf "while joining container IPC namespace") }
    else
      { threadNs := procNs,
        events := [CryptEvent.enterHostNs, CryptEvent.unlockAttempt,
                   CryptEvent.enterSelfNs],
        reply := some (String.append "/dev/mapper/" o.openName),
        ret := o.openErr }
  else
    { threadNs := ns0, events := [CryptEvent.unlockAttempt],
      reply := some (String.append "/dev/mapper/" o.openName),
      ret := o.openErr }

/-! ## Chroot -/

/-- Arguments of the Chroot RPC (args.ChrootArgs). -/
structure ChrootArgs where
  root : String
  method : String
deriving DecidableEq, Repr

/-- Oracle for the kernel-facing calls inside Chroot, one flag per call
site: the initial chdir to the requested root, os.Getwd, the open of the
host root directory, pivot_root, the fchdir into the held host-root
descriptor, the slave+recursive mount-propagation change, the lazy detach
unmount, the MS_MOVE mount, the chroot syscall, and the final chdir to /. -/
structure ChrootOracle where
  chdirRootOk : Bool
  getwdOk : Bool
  openOldrootOk : Bool
  pivotOk : Bool
  fchdirOk : Bool
  mountSlaveOk : Bool
  unmountOk : Bool
  mountMoveOk : Bool
  chrootOk : Bool
  chdirSlashOk : Bool
deriving DecidableEq, Repr

/-- Kernel-visible events of a Chroot call. -/
inductive ChrootEvent where
  | chdir (path : String)
  | getwd
  | openHostRoot
  | pivotRootCall
  | fchdirOldRoot
  | mountSlaveRec
  | unmountDetach
  | mountMove
  | chrootSyscall
deriving DecidableEq, Repr

/-- Marker for the current directory after fchdir into the held host-root
descriptor (the detached old root), distinct from the container's /. -/
def oldRootDirMark : String := "(host-old-root)"

/-- Output of the Chroot RPC: final current working directory, event trace,
and return value. -/
structure ChrootOut where
  cwd : String
  events : List ChrootEvent
  ret : Option GoErr
deriving DecidableEq, Repr

/-- Tail shared by every path through the switch in Methods.Chroot: the
unconditional final chdir to /, whose failure makes Chroot return an
error. -/
def chrootFinal (o : ChrootOracle) (evs : List ChrootEvent) (cwd : String) :
    ChrootOut :=
  if o.chdirSlashOk then
    { cwd := "/", events := evs ++ [ChrootEvent.chdir "/"], ret := none }
  else
    { cwd := cwd, events := evs ++ [ChrootEvent.chdir "/"],
      ret := some (GoErr.errorf "chdir /") }

/-- The switch on arguments.Method in Methods.Chroot, followed by the shared
final chdir.  The switch has no default case: a method other than pivot,
move and chroot falls through to the final chdir with no root-switch call
performed. -/
def chrootSwitch (o : ChrootOracle) (method : String)
    (evs : List ChrootEvent) (cwd : String) : ChrootOut :=
  if method = "pivot" then
    if o.openOldrootOk = false then
      { cwd := cwd, events := evs ++ [ChrootEvent.openHostRoot],
        ret := some (GoErr.errorf "failed to open host root directory") }
    else if o.pivotOk = false then
      { cwd := cwd,
        events := evs ++ [ChrootEvent.openHostRoot, ChrootEvent.pivotRootCall],
        ret := some (GoErr.errorf "pivot_root") }
    else if o.fchdirOk = false then
      { cwd := cwd,
        events := evs ++ [ChrootEvent.openHostRoot, ChrootEvent.pivotRootCall,
                          ChrootEvent.fchdirOldRoot],
        ret := some (GoErr.errorf "failed to change directory to old root") }
    else if o.mountSlaveOk = false then
      { cwd := oldRootDirMark,
        events := evs ++ [ChrootEvent.openHostRoot, ChrootEvent.pivotRootCall,
                          ChrootEvent.fchdirOldRoot, ChrootEvent.mountSlaveRec],
        ret := some (GoErr.errorf
          "failed to apply slave mount propagation for host / directory") }
    else if o.unmountOk = false then
      { cwd := oldRootDirMark,
        events := evs ++ [ChrootEvent.openHostRoot, ChrootEvent.pivotRootCall,
                          ChrootEvent.fchdirOldRoot, ChrootEvent.mountSlaveRec,
                          ChrootEvent.unmountDetach],
        ret := some (GoErr.errorf "unmount pivot_root dir") }
    else
      chrootFinal o
        (evs ++ [ChrootEvent.openHostRoot, ChrootEvent.pivotRootCall,
                 ChrootEvent.fchdirOldRoot, ChrootEvent.mountSlaveRec,
                 ChrootEvent.unmountDetach]) oldRootDirMark
  else if method = "move" then
    if o.mountMoveOk = false then
      { cwd := cwd, events := evs ++ [ChrootEvent.mountMove],
        ret := some (GoErr.errorf "failed to move root as / directory") }
    else if o.chrootOk = false then
      { cwd := cwd,
        events := evs ++ [ChrootEvent.mountMove, ChrootEvent.chrootSyscall],
        ret := some (GoErr.errorf "chroot failed") }
    else
      chrootFinal o (evs ++ [ChrootEvent.mountMove, ChrootEvent.chrootSyscall])
        cwd
  else if method = "chroot" then
    if o.chrootOk = false then
      { cwd := cwd, events := evs ++ [ChrootEvent.chrootSyscall],
        ret := some (GoErr.errorf "chroot failed") }
    else
      chrootFinal o (evs ++ [ChrootEvent.chrootSyscall]) cwd
  else
    chrootFinal o evs cwd

/-- Methods.Chroot: with root other than "." it first chdirs into root
(error return on failure); with root "." it queries the current directory,
adopting it as root only when the query succeeds.  Then the strategy switch
runs, and every path through it ends in the unconditional final chdir
to /. -/
def Chroot (o : ChrootOracle) (a : ChrootArgs) (cwd0 : String) : ChrootOut :=
  if a.root = "." then
    chrootSwitch o a.method [ChrootEvent.getwd] cwd0
  else
    if o.chdirRootOk then
      chrootSwitch o a.method [ChrootEvent.chdir a.root] a.root
    else
      { cwd := cwd0, events := [ChrootEvent.chdir a.root],
        ret := some (GoErr.errorf "failed to change directory to root") }

/-! ## LoopDevice -/

/-- The reserved path naming the process's own open file descriptors; an
image reference starting with it adopts an inherited descriptor. -/
def procSelfFd : String := "/proc/self/fd/"

/-- strings.HasPrefix, at the level of the character sequences (Go
strings are byte strings; the reserved prefix is plain ASCII, so character
prefix equality coincides with Go's byte prefix test). -/
def hasPre (s p : String) : Bool :=
  p.data.isPrefixOf s.data

/-- strings.TrimPrefix for a present prefix: the rest of the string after
the prefix. -/
def trimPre (s p : String) : String :=
  String.mk (s.data.drop p.data.length)

/-- Numeric value of a list of decimal digit characters. -/
def decDigitsVal (cs : List Char) : Nat :=
  cs.foldl (fun acc c => acc * 10 + (c.toNat - 48)) 0

/-- strconv.ParseUint(s, 10, 32): succeeds exactly on a nonempty string of
decimal digits whose value fits in 32 bits. -/
def parseUint32 (s : String) : Option Nat :=
  let cs := s.data
  if cs = [] then none
  else if cs.all (fun c => c.isDigit) then
    if decDigitsVal cs < 4294967296 then some (decDigitsVal cs) else none
  else none

/-- Arguments of the LoopDevice RPC (args.LoopArgs; Info is carried along
opaquely and not modelled further). -/
structure LoopArgs where
  image : String
  mode : Nat
  maxDevices : Nat
  shared : Bool
deriving DecidableEq, Repr

/-- The process's real uid and gid, as returned by os.Getuid and
os.Getgid; syscall.Setfsuid/Setfsgid do not change them. -/
structure ProcIds where
  uid : Nat
  gid : Nat
deriving DecidableEq, Repr

/-- Oracle for the kernel-facing calls inside LoopDevice: whether the
os.OpenFile of a path image succeeds, the result of the user.GetGrNam
lookup of the disk group (none = lookup failure), whether
loopdev.AttachFromFile succeeds, and the device index it reports on
success. -/
structure LoopOracle where
  openOk : Bool
  grDisk : Option Nat
  attachOk : Bool
  attachDev : Nat
deriving DecidableEq, Repr

/-- Kernel-visible events of a LoopDevice call. -/
inductive LoopEvent where
  | openFile (path : String) (mode : Nat)
  | adoptFd (fd : Nat)
  | lookupDiskGroup
  | setfsuid (v : Int)
  | setfsgid (v : Int)
  | attachLoop
deriving DecidableEq, Repr

/-- Process state touched by LoopDevice: the thread's filesystem uid and
gid, and the package-level diskGID cache (initially -1, meaning not yet
resolved). -/
structure LoopState where
  fsuid : Int
  fsgid : Int
  diskGID : Int
deriving DecidableEq, Repr

/-- Output of the LoopDevice RPC: final state, event trace, the device
index assigned through the reply pointer, and the return value. -/
structure LoopOut where
  state : LoopState
  events : List LoopEvent
  reply : Option Nat
  ret : Option GoErr
deriving DecidableEq, Repr

/-- Whether a LoopDevice event trace contains a filesystem open of some
path. -/
def hasOpenEvent (evs : List LoopEvent) : Bool :=
  evs.any fun e =>
    match e with
    | LoopEvent.openFile _ _ => true
    | _ => false

/-- The part of Methods.LoopDevice that runs once an image file is in hand:
resolve the diskGID cache if it still holds -1 (the resolved disk group id
on lookup success, 0 on lookup failure), escalate the thread's fs identity
to uid 0 and gid diskGID, attempt the attach, and on every exit path after
the escalation run the deferred restores, which set fsgid to os.Getgid()
and fsuid to os.Getuid(). -/
def loopAttach (o : LoopOracle) (ids : ProcIds) (s : LoopState)
    (evs : List LoopEvent) : LoopOut :=
  let gidEvs : Int × List LoopEvent :=
    if s.diskGID = -1 then
      match o.grDisk with
      | some g => ((g : Int), evs ++ [LoopEvent.lookupDiskGroup])
      | none => (0, evs ++ [LoopEvent.lookupDiskGroup])
    else (s.diskGID, evs)
  let gid := gidEvs.1
  let evs2 := gidEvs.2 ++ [LoopEvent.setfsuid 0, LoopEvent.setfsgid gid,
                           LoopEvent.attachLoop,
                           LoopEvent.setfsgid (ids.gid : Int),
                           LoopEvent.setfsuid (ids.uid : Int)]
  let final : LoopState :=
    { fsuid := (ids.uid : Int), fsgid := (ids.gid : Int), diskGID := gid }
  if o.attachOk then
    { state := final, events := evs2, reply := some o.attachDev, ret := none }
  else
    { state := final, events := evs2, reply := none,
      ret := some (GoErr.errorf "could not attach image file to loop device") }

/-- Methods.LoopDevice: an image reference starting with the reserved
/proc/self/fd/ prefix has its suffix parsed as a 32-bit decimal descriptor
number — parse failure is an error return before anything else happens,
parse success adopts the descriptor with no filesystem open; any other
reference is opened as a filesystem path with the requested mode, a failed
open being an error return.  Then the attach phase runs. -/
def LoopDevice (o : LoopOracle) (a : LoopArgs) (ids : ProcIds)
    (s : LoopState) : LoopOut :=
  if hasPre a.image procSelfFd then
    match parseUint32 (trimPre a.image procSelfFd) with
    | some fd => loopAttach o ids s [LoopEvent.adoptFd fd]
    | none =>
      { state := s, events := [], reply := none,
        ret := some (GoErr.errorf "failed to convert image file descriptor") }
  else
    if o.openOk then loopAttach o ids s [LoopEvent.openFile a.image a.mode]
    else
      { state := s, events := [LoopEvent.openFile a.image a.mode],
        reply := none,
        ret := some (GoErr.errorf "could not open image file") }

/-! ## MonitorContainer (image-build engine) -/

/-- Signal number of SIGCHLD on Linux. -/
def SIGCHLD : Nat := 17

/-- One signal received from the signals channel, together with the oracle
data for the kernel call it triggers: for SIGCHLD the result of the
non-blocking wait4 (none = wait error; some (wpid, st) = returned pid and
the status it stored), for any other signal whether the kill forwarding it
succeeds. -/
structure SigEvent where
  sig : Nat
  waitRes : Option (Nat × Nat)
  killOk : Bool
deriving DecidableEq, Repr

/-- Kernel-visible events of the monitoring loop: a non-blocking reap
attempt on the tracked pid, or a signal forwarded to it via kill. -/
inductive MonEvent where
  | reapAttempt
  | forward (sig : Nat)
deriving DecidableEq, Repr

/-- Result of MonitorContainer: the collected wait status on success, or
the current status value together with an error. -/
inductive MonResult where
  | ok (status : Nat)
  | fail (status : Nat) (msg : String)
deriving DecidableEq, Repr

/-- One iteration of the loop in MonitorContainer, on one received signal:
SIGCHLD runs wait4(pid, &status, WNOHANG) — a wait error returns an error,
a reaped pid equal to the tracked pid returns the collected status, any
other reaped pid continues the loop; every other signal is forwarded to
the tracked pid with kill, a kill failure returning an error and a success
continuing the loop.  wait4 leaves status untouched when it reaps
nothing (wpid 0).  Returns the events, the threaded status value and
some result exactly when the loop returns. -/
def monitorStep (pid : Nat) (status : Nat) (e : SigEvent) :
    List MonEvent × Nat × Option MonResult :=
  if e.sig = SIGCHLD then
    match e.waitRes with
    | none =>
      ([MonEvent.reapAttempt], status,
       some (MonResult.fail status "error while waiting child"))
    | some (wpid, st) =>
      let status1 := if wpid = 0 then status else st
      if wpid = pid then
        ([MonEvent.reapAttempt], status1, some (MonResult.ok status1))
      else
        ([MonEvent.reapAttempt], status1, none)
  else
    if e.killOk then
      ([MonEvent.forward e.sig], status, none)
    else
      ([MonEvent.forward e.sig], status,
       some (MonResult.fail status "interrupted by signal"))

/-- EngineOperations.MonitorContainer of the image-build engine: a receive
loop over the signal stream, iterating monitorStep until an iteration
returns; an exhausted stream (the channel would block forever) yields
none. -/
def MonitorContainer (pid : Nat) (status : Nat) :
    List SigEvent → List MonEvent × Option MonResult
  | [] => ([], none)
  | e :: rest =>
    match monitorStep pid status e with
    | (evs, _, some r) => (evs, some r)
    | (evs, status1, none) =>
      let tail := MonitorContainer pid status1 rest
      (evs ++ tail.1, tail.2)

/-! ## Theorems -/

/-- Zeroing the umask makes the created mode the requested mode (up to the
twelve mode bits). -/
theorem applyUmask_zero (p : Nat) : applyUmask p 0 = p &&& permBits := by
  simp [applyUmask]

/-- C7 (counterexample): for the spec's Mount scenario failing with errno 13,
the value delivered through the reply pointer is the raw kernel error, not an
error wrapped with source/target context: Methods.Mount stores the
syscall.Mount result into the reply unchanged. -/
theorem C7_mount_raw_error_cex :
    (Mount { mountErrno := some 13 }
      { source := "/proc", target := "/new/proc", filesystem := "proc",
        mountflags := 0, data := "" }).mountErr = some (GoErr.sys 13) ∧
    Option.map GoErr.isErrorf
      (Mount { mountErrno := some 13 }
        { source := "/proc", target := "/new/proc", filesystem := "proc",
          mountflags := 0, data := "" }).mountErr = some false := by
  decide

/-- C7 (amended): for every Mount call in which the kernel mount primitive
fails, the error delivered to the caller through the reply pointer is the
kernel error verbatim — no wrapping, no added source/target context — and
the method's own return value is nil. -/
theorem C7_mount_error_verbatim (o : MountOracle) (a : MountArgs) (e : Nat)
    (h : o.mountErrno = some e) :
    (Mount o a).mountErr = some (GoErr.sys e) ∧
    Option.map GoErr.isErrorf (Mount o a).mountErr = some false ∧
    (Mount o a).ret = none := by
  simp [Mount, h, GoErr.isErrorf]

/-- Witness for C7's amended theorem at errno 13. -/
theorem C7_mount_error_verbatim_witness :
    (Mount { mountErrno := some 13 }
      { source := "/proc", target := "/new/proc", filesystem := "proc",
        mountflags := 0, data := "" }).mountErr = some (GoErr.sys 13) ∧
    Option.map GoErr.isErrorf
      (Mount { mountErrno := some 13 }
        { source := "/proc", target := "/new/proc", filesystem := "proc",
          mountflags := 0, data := "" }).mountErr = some false ∧
    (Mount { mountErrno := some 13 }
      { source := "/proc", target := "/new/proc", filesystem := "proc",
        mountflags := 0, data := "" }).ret = none :=
  C7_mount_error_verbatim { mountErrno := some 13 }
    { source := "/proc", target := "/new/proc", filesystem := "proc",
      mountflags := 0, data := "" } 13 rfl

/-- C6: every Mkdir call restores the prior umask before returning, on both
mkdir success and mkdir failure; on failure the directory set is unchanged
and an error is returned; and on success the directory is created with
exactly the requested mode (any mode within the umask-maskable bits), the
ambient umask having been zeroed for the creation. -/
theorem C6_mkdir_exact_mode_umask_restored (o : MkdirOracle) (a : MkdirArgs)
    (s : FsState) :
    (Mkdir o a s).state.umask = s.umask ∧
    (o.mkdirOk = false →
      (Mkdir o a s).state.dirs = s.dirs ∧ (Mkdir o a s).ret ≠ none) ∧
    (a.perm &&& permBits = a.perm → o.mkdirOk = true →
      (Mkdir o a s).state.dirs = (a.path, a.perm) :: s.dirs) := by
  refine ⟨rfl, ?_, ?_⟩
  · intro h
    simp [Mkdir, h]
  · intro hperm h
    simp [Mkdir, h, applyUmask_zero, hperm]

/-- Witness for C6 at the spec's instance: mode 0755 requested under an
ambient umask of 022 creates the directory with exactly mode 0755, and the
umask is back at 022 afterwards. -/
theorem C6_mkdir_witness :
    (Mkdir { mkdirOk := true } { path := "/d", perm := 0o755 }
      { umask := 0o22, dirs := [] }).state.umask = 0o22 ∧
    (Mkdir { mkdirOk := true } { path := "/d", perm := 0o755 }
      { umask := 0o22, dirs := [] }).state.dirs = [("/d", 0o755)] :=
  ⟨(C6_mkdir_exact_mode_umask_restored { mkdirOk := true }
      { path := "/d", perm := 0o755 } { umask := 0o22, dirs := [] }).1,
   (C6_mkdir_exact_mode_umask_restored { mkdirOk := true }
      { path := "/d", perm := 0o755 } { umask := 0o22, dirs := [] }).2.2
      (by decide) rfl⟩

/-- C3: a Decrypt call with masterPid ≤ 0 performs no IPC namespace call at
all and leaves the thread's namespace untouched; a Decrypt call with
masterPid > 0 whose join into the host IPC namespace succeeded performs, on
both the unlock-success and the unlock-failure path, exactly the trace
host-join, unlock attempt, own-namespace re-join, and whenever that re-join
setns succeeds the thread ends in the process's own IPC namespace. -/
theorem C3_decrypt_ipc_bracket (hostNs procNs : Nat) (o : DecryptOracle)
    (a : CryptArgs) (ns0 : Nat) :
    (a.masterPid ≤ 0 →
      (Decrypt hostNs procNs o a ns0).threadNs = ns0 ∧
      (Decrypt hostNs procNs o a ns0).events = [CryptEvent.unlockAttempt]) ∧
    (0 < a.masterPid → o.enterHostOk = true →
      (Decrypt hostNs procNs o a ns0).events =
        [CryptEvent.enterHostNs, CryptEvent.unlockAttempt,
         CryptEvent.enterSelfNs] ∧
      (o.enterSelfOk = true →
        (Decrypt hostNs procNs o a ns0).threadNs = procNs)) := by
  constructor
  · intro h
    rw [Decrypt, if_neg (by omega)]
    exact ⟨rfl, rfl⟩
  · intro h hHost
    rw [Decrypt, if_pos h, if_neg (by simp [hHost])]
    by_cases hSelf : o.enterSelfOk
    · rw [if_neg (by simp [hSelf])]
      exact ⟨rfl, fun _ => rfl⟩
    · rw [if_pos (by simp [hSelf])]
      refine ⟨rfl, fun hs => ?_⟩
      rw [hs] at hSelf
      exact absurd rfl hSelf

/-- Witness for C3 on the unlock-failure path: masterPid 42, both setns
calls succeed, the unlock itself fails; the trace still ends with the
own-namespace re-join and the thread is back in namespace 2. -/
theorem C3_decrypt_ipc_bracket_witness :
    (Decrypt 1 2
      { enterHostOk := true, openName := "",
        openErr := some (GoErr.errorf "open failed"), enterSelfOk := true }
      { key := "k", loopdev := "/dev/loop0", masterPid := 42 } 2).events =
      [CryptEvent.enterHostNs, CryptEvent.unlockAttempt,
       CryptEvent.enterSelfNs] ∧
    (Decrypt 1 2
      { enterHostOk := true, openName := "",
        openErr := some (GoErr.errorf "open failed"), enterSelfOk := true }
      { key := "k", loopdev := "/dev/loop0", masterPid := 42 } 2).threadNs
      = 2 := by
  have h := C3_decrypt_ipc_bracket 1 2
    { enterHostOk := true, openName := "",
      openErr := some (GoErr.errorf "open failed"), enterSelfOk := true }
    { key := "k", loopdev := "/dev/loop0", masterPid := 42 } 2
  exact ⟨(h.2 (by decide) rfl).1, (h.2 (by decide) rfl).2 rfl⟩

/-- A mapped-device path built from the /dev/mapper/ prefix is never the
empty string, whatever device name the unlock returned. -/
theorem devMapper_ne_empty (s : String) :
    String.append "/dev/mapper/" s ≠ "" := by
  intro h
  have h2 : ("/dev/mapper/".data ++ s.data) = ([] : List Char) :=
    congrArg String.data h
  simp at h2

/-- C10 (counterexample): a Decrypt call with masterPid 42 that joins the
host IPC namespace, attempts (and fails) the unlock, and then fails the
re-join into the container IPC namespace, returns with the reply pointer
never assigned — the claimed unconditional reply assignment does not happen
on the failed-re-join path even though the unlock attempt was reached. -/
theorem C10_decrypt_reply_unassigned_cex :
    CryptEvent.unlockAttempt ∈
      (Decrypt 1 2
        { enterHostOk := true, openName := "",
          openErr := some (GoErr.errorf "open failed"), enterSelfOk := false }
        { key := "k", loopdev := "/dev/loop0", masterPid := 42 } 2).events ∧
    (Decrypt 1 2
      { enterHostOk := true, openName := "",
        openErr := some (GoErr.errorf "open failed"), enterSelfOk := false }
      { key := "k", loopdev := "/dev/loop0", masterPid := 42 } 2).reply
      = none := by
  decide

/-- C10 (amended): every Decrypt call that reaches the unlock attempt and
does not fail the container-namespace re-join assigns the reply to
"/dev/mapper/" concatenated with the returned device name before
returning, even when the unlock failed — the caller then receives both a
non-empty reply path and the unlock error; when the re-join fails, the
call instead returns the join error with the reply never assigned. -/
theorem C10_decrypt_reply_on_rejoin_ok (hostNs procNs : Nat)
    (o : DecryptOracle) (a : CryptArgs) (ns0 : Nat)
    (hReach : CryptEvent.unlockAttempt ∈
      (Decrypt hostNs procNs o a ns0).events)
    (hSelf : 0 < a.masterPid → o.enterSelfOk = true) :
    (Decrypt hostNs procNs o a ns0).reply
      = some (String.append "/dev/mapper/" o.openName) ∧
    (Decrypt hostNs procNs o a ns0).reply ≠ some "" ∧
    (Decrypt hostNs procNs o a ns0).ret = o.openErr := by
  by_cases hm : a.masterPid > 0
  · have hSelf' := hSelf hm
    rw [Decrypt, if_pos hm] at hReach ⊢
    by_cases hHost : o.enterHostOk
    · rw [if_neg (by simp [hHost]), if_neg (by simp [hSelf'])] at hReach ⊢
      refine ⟨rfl, ?_, rfl⟩
      intro h
      exact devMapper_ne_empty o.openName (Option.some.inj h)
    · rw [if_pos (by simp [hHost])] at hReach
      simp at hReach
  · rw [Decrypt, if_neg hm]
    refine ⟨rfl, ?_, rfl⟩
    intro h
    exact devMapper_ne_empty o.openName (Option.some.inj h)

/-- Witness for C10's amended theorem on the unlock-failure path with a
successful re-join: the reply holds /dev/mapper/ plus the empty returned
name and the unlock error is returned alongside it. -/
theorem C10_decrypt_reply_on_rejoin_ok_witness :
    (Decrypt 1 2
      { enterHostOk := true, openName := "",
        openErr := some (GoErr.errorf "open failed"), enterSelfOk := true }
      { key := "k", loopdev := "/dev/loop0", masterPid := 42 } 2).reply
      = some (String.append "/dev/mapper/" "") ∧
    (Decrypt 1 2
      { enterHostOk := true, openName := "",
        openErr := some (GoErr.errorf "open failed"), enterSelfOk := true }
      { key := "k", loopdev := "/dev/loop0", masterPid := 42 } 2).reply
      ≠ some "" ∧
    (Decrypt 1 2
      { enterHostOk := true, openName := "",
        openErr := some (GoErr.errorf "open failed"), enterSelfOk := true }
      { key := "k", loopdev := "/dev/loop0", masterPid := 42 } 2).ret
      = some (GoErr.errorf "open failed") :=
  C10_decrypt_reply_on_rejoin_ok 1 2
    { enterHostOk := true, openName := "",
      openErr := some (GoErr.errorf "open failed"), enterSelfOk := true }
    { key := "k", loopdev := "/dev/loop0", masterPid := 42 } 2
    (by decide) (fun _ => rfl)

/-- The final unconditional chdir to / appends its event to the trace on
both outcomes. -/
theorem chrootFinal_events (o : ChrootOracle) (evs : List ChrootEvent)
    (cwd : String) :
    (chrootFinal o evs cwd).events = evs ++ [ChrootEvent.chdir "/"] := by
  rw [chrootFinal]
  split_ifs <;> rfl

/-- When the final chdir to / succeeds, chrootFinal returns success. -/
theorem chrootFinal_ret_ok (o : ChrootOracle) (evs : List ChrootEvent)
    (cwd : String) (h : o.chdirSlashOk = true) :
    (chrootFinal o evs cwd).ret = none := by
  rw [chrootFinal, if_pos h]

/-- chrootFinal succeeds only with the current directory left at /, with
the final chdir in the trace; and a failing final chdir means an error
return. -/
theorem chrootFinal_spec (o : ChrootOracle) (evs : List ChrootEvent)
    (cwd : String) :
    ((chrootFinal o evs cwd).ret = none →
      (chrootFinal o evs cwd).cwd = "/" ∧
      ChrootEvent.chdir "/" ∈ (chrootFinal o evs cwd).events) ∧
    (o.chdirSlashOk = false → (chrootFinal o evs cwd).ret ≠ none) := by
  rw [chrootFinal]
  split_ifs with h
  · exact ⟨fun _ => ⟨rfl, by simp⟩, fun hf => by simp [hf] at h⟩
  · exact ⟨fun hr => by simp at hr, fun _ => by simp⟩

/-- Every branch of the strategy switch either returns an error or runs the
shared final chdir: success implies the current directory is /, and a
failing final chdir forces an error return, for any method string. -/
theorem chrootSwitch_spec (o : ChrootOracle) (method : String)
    (evs : List ChrootEvent) (cwd : String) :
    ((chrootSwitch o method evs cwd).ret = none →
      (chrootSwitch o method evs cwd).cwd = "/" ∧
      ChrootEvent.chdir "/" ∈ (chrootSwitch o method evs cwd).events) ∧
    (o.chdirSlashOk = false → (chrootSwitch o method evs cwd).ret ≠ none) := by
  rw [chrootSwitch]
  split_ifs <;>
    first
      | exact chrootFinal_spec o _ _
      | exact ⟨fun h => by simp at h, fun _ => by simp⟩

/-- A method other than pivot, move and chroot skips the whole switch and
goes straight to the final chdir. -/
theorem chrootSwitch_unknown (o : ChrootOracle) (method : String)
    (evs : List ChrootEvent) (cwd : String) (hp : method ≠ "pivot")
    (hmv : method ≠ "move") (hc : method ≠ "chroot") :
    chrootSwitch o method evs cwd = chrootFinal o evs cwd := by
  rw [chrootSwitch, if_neg hp, if_neg hmv, if_neg hc]

/-- C2: for every Chroot call with one of the three strategies, a success
return means the process's current working directory is / — every strategy
path ends with the unconditional final chdir to /, present in the trace of
every successful call — and a failure of that final chdir makes Chroot
return an error. -/
theorem C2_chroot_success_ends_at_root (o : ChrootOracle) (a : ChrootArgs)
    (cwd0 : String)
    (hm : a.method = "pivot" ∨ a.method = "move" ∨ a.method = "chroot") :
    ((Chroot o a cwd0).ret = none →
      (Chroot o a cwd0).cwd = "/" ∧
      ChrootEvent.chdir "/" ∈ (Chroot o a cwd0).events) ∧
    (o.chdirSlashOk = false → (Chroot o a cwd0).ret ≠ none) := by
  clear hm
  rw [Chroot]
  split_ifs <;>
    first
      | exact chrootSwitch_spec o a.method _ _
      | exact ⟨fun h => by simp at h, fun _ => by simp⟩

/-- Witness for C2 with the chroot strategy and every kernel call
succeeding: the call succeeds and the current directory ends at /. -/
theorem C2_chroot_success_ends_at_root_witness :
    (Chroot
      { chdirRootOk := true, getwdOk := true, openOldrootOk := true,
        pivotOk := true, fchdirOk := true, mountSlaveOk := true,
        unmountOk := true, mountMoveOk := true, chrootOk := true,
        chdirSlashOk := true }
      { root := "/newroot", method := "chroot" } "/x").cwd = "/" ∧
    ChrootEvent.chdir "/" ∈
      (Chroot
        { chdirRootOk := true, getwdOk := true, openOldrootOk := true,
          pivotOk := true, fchdirOk := true, mountSlaveOk := true,
          unmountOk := true, mountMoveOk := true, chrootOk := true,
          chdirSlashOk := true }
        { root := "/newroot", method := "chroot" } "/x").events :=
  (C2_chroot_success_ends_at_root
    { chdirRootOk := true, getwdOk := true, openOldrootOk := true,
      pivotOk := true, fchdirOk := true, mountSlaveOk := true,
      unmountOk := true, mountMoveOk := true, chrootOk := true,
      chdirSlashOk := true }
    { root := "/newroot", method := "chroot" } "/x"
    (Or.inr (Or.inr rfl))).1 (by decide)

/-- C9: a Chroot call whose strategy string is none of pivot, move and
chroot performs no root-switch operation at all — its trace holds nothing
but the getwd query and chdir calls — yet whenever the preamble did not
fail it still executes the final chdir to / and, if that chdir succeeds,
returns success instead of rejecting the unknown strategy. -/
theorem C9_chroot_unknown_method_falls_through (o : ChrootOracle)
    (a : ChrootArgs) (cwd0 : String) (hp : a.method ≠ "pivot")
    (hmv : a.method ≠ "move") (hc : a.method ≠ "chroot") :
    (∀ ev ∈ (Chroot o a cwd0).events,
      ev = ChrootEvent.getwd ∨ ∃ p, ev = ChrootEvent.chdir p) ∧
    ((a.root = "." ∨ o.chdirRootOk = true) →
      ChrootEvent.chdir "/" ∈ (Chroot o a cwd0).events ∧
      (o.chdirSlashOk = true → (Chroot o a cwd0).ret = none)) := by
  by_cases hroot : a.root = "."
  · rw [Chroot, if_pos hroot, chrootSwitch_unknown o _ _ _ hp hmv hc]
    constructor
    · intro ev hev
      rw [chrootFinal_events] at hev
      simp at hev
      rcases hev with h | h
      · exact Or.inl h
      · exact Or.inr ⟨"/", h⟩
    · intro _
      refine ⟨?_, fun hs => chrootFinal_ret_ok o _ _ hs⟩
      rw [chrootFinal_events]
      simp
  · rw [Chroot, if_neg hroot]
    by_cases hcd : o.chdirRootOk
    · rw [if_pos hcd, chrootSwitch_unknown o _ _ _ hp hmv hc]
      constructor
      · intro ev hev
        rw [chrootFinal_events] at hev
        simp at hev
        rcases hev with h | h
        · exact Or.inr ⟨a.root, h⟩
        · exact Or.inr ⟨"/", h⟩
      · intro _
        refine ⟨?_, fun hs => chrootFinal_ret_ok o _ _ hs⟩
        rw [chrootFinal_events]
        simp
    · rw [if_neg hcd]
      constructor
      · intro ev hev
        simp at hev
        exact Or.inr ⟨a.root, hev⟩
      · intro hpre
        rcases hpre with h | h
        · exact absurd h hroot
        · exact absurd h hcd

/-- Witness for C9 with strategy string "bogus" and every kernel call
succeeding: the final chdir to / is still executed and the call returns
success. -/
theorem C9_chroot_unknown_method_witness :
    ChrootEvent.chdir "/" ∈
      (Chroot
        { chdirRootOk := true, getwdOk := true, openOldrootOk := true,
          pivotOk := true, fchdirOk := true, mountSlaveOk := true,
          unmountOk := true, mountMoveOk := true, chrootOk := true,
          chdirSlashOk := true }
        { root := "/newroot", method := "bogus" } "/x").events ∧
    (Chroot
      { chdirRootOk := true, getwdOk := true, openOldrootOk := true,
        pivotOk := true, fchdirOk := true, mountSlaveOk := true,
        unmountOk := true, mountMoveOk := true, chrootOk := true,
        chdirSlashOk := true }
      { root := "/newroot", method := "bogus" } "/x").ret = none := by
  have h := (C9_chroot_unknown_method_falls_through
    { chdirRootOk := true, getwdOk := true, openOldrootOk := true,
      pivotOk := true, fchdirOk := true, mountSlaveOk := true,
      unmountOk := true, mountMoveOk := true, chrootOk := true,
      chdirSlashOk := true }
    { root := "/newroot", method := "bogus" } "/x"
    (by decide) (by decide) (by decide)).2 (Or.inr rfl)
  exact ⟨h.1, h.2 rfl⟩

/-- After the attach phase, the thread's fs identity is what the deferred
restores set it to — the process's real uid and gid — and the escalation
to fs-uid 0 is in the trace, on both attach outcomes. -/
theorem loopAttach_fsids (o : LoopOracle) (ids : ProcIds) (s : LoopState)
    (evs : List LoopEvent) :
    (loopAttach o ids s evs).state.fsuid = (ids.uid : Int) ∧
    (loopAttach o ids s evs).state.fsgid = (ids.gid : Int) ∧
    LoopEvent.setfsuid 0 ∈ (loopAttach o ids s evs).events := by
  by_cases hd : s.diskGID = -1 <;>
    rcases hgr : o.grDisk with _ | g <;>
      by_cases hat : o.attachOk <;>
        simp [loopAttach, hd, hgr, hat]

/-- With the diskGID cache already resolved, the attach phase performs no
group lookup (the trace past the entry events is exactly the escalation,
attach and restore sequence) and keeps the cached value. -/
theorem loopAttach_cached (o : LoopOracle) (ids : ProcIds) (s : LoopState)
    (evs : List LoopEvent) (h : s.diskGID ≠ -1) :
    (loopAttach o ids s evs).state.diskGID = s.diskGID ∧
    (loopAttach o ids s evs).events =
      evs ++ [LoopEvent.setfsuid 0, LoopEvent.setfsgid s.diskGID,
              LoopEvent.attachLoop, LoopEvent.setfsgid (ids.gid : Int),
              LoopEvent.setfsuid (ids.uid : Int)] := by
  by_cases hat : o.attachOk <;> simp [loopAttach, h, hat]

/-- With the diskGID cache unresolved (-1), the attach phase performs the
group lookup and caches the resolved disk gid on lookup success and 0 on
lookup failure — in both cases a nonnegative value, hence never -1
again. -/
theorem loopAttach_fresh (o : LoopOracle) (ids : ProcIds) (s : LoopState)
    (evs : List LoopEvent) (h : s.diskGID = -1) :
    (loopAttach o ids s evs).state.diskGID =
      (match o.grDisk with | some g => ((g : Nat) : Int) | none => 0) ∧
    0 ≤ (loopAttach o ids s evs).state.diskGID ∧
    LoopEvent.lookupDiskGroup ∈ (loopAttach o ids s evs).events := by
  rcases hgr : o.grDisk with _ | g <;> by_cases hat : o.attachOk <;>
    simp [loopAttach, h, hgr, hat]

/-- The events the attach phase appends past the entry events contain no
filesystem open. -/
theorem loopAttach_tail (o : LoopOracle) (ids : ProcIds) (s : LoopState)
    (evs : List LoopEvent) :
    ∃ tail : List LoopEvent,
      (loopAttach o ids s evs).events = evs ++ tail ∧
      hasOpenEvent tail = false := by
  by_cases hd : s.diskGID = -1
  · rcases hgr : o.grDisk with _ | g <;> by_cases hat : o.attachOk
    · exact ⟨[LoopEvent.lookupDiskGroup, LoopEvent.setfsuid 0,
        LoopEvent.setfsgid 0, LoopEvent.attachLoop,
        LoopEvent.setfsgid (ids.gid : Int), LoopEvent.setfsuid (ids.uid : Int)],
        by simp [loopAttach, hd, hgr, hat], by simp [hasOpenEvent]⟩
    · exact ⟨[LoopEvent.lookupDiskGroup, LoopEvent.setfsuid 0,
        LoopEvent.setfsgid 0, LoopEvent.attachLoop,
        LoopEvent.setfsgid (ids.gid : Int), LoopEvent.setfsuid (ids.uid : Int)],
        by simp [loopAttach, hd, hgr, hat], by simp [hasOpenEvent]⟩
    · exact ⟨[LoopEvent.lookupDiskGroup, LoopEvent.setfsuid 0,
        LoopEvent.setfsgid ((g : Nat) : Int), LoopEvent.attachLoop,
        LoopEvent.setfsgid (ids.gid : Int), LoopEvent.setfsuid (ids.uid : Int)],
        by simp [loopAttach, hd, hgr, hat], by simp [hasOpenEvent]⟩
    · exact ⟨[LoopEvent.lookupDiskGroup, LoopEvent.setfsuid 0,
        LoopEvent.setfsgid ((g : Nat) : Int), LoopEvent.attachLoop,
        LoopEvent.setfsgid (ids.gid : Int), LoopEvent.setfsuid (ids.uid : Int)],
        by simp [loopAttach, hd, hgr, hat], by simp [hasOpenEvent]⟩
  · by_cases hat : o.attachOk
    · exact ⟨[LoopEvent.setfsuid 0, LoopEvent.setfsgid s.diskGID,
        LoopEvent.attachLoop, LoopEvent.setfsgid (ids.gid : Int),
        LoopEvent.setfsuid (ids.uid : Int)],
        by simp [loopAttach, hd, hat], by simp [hasOpenEvent]⟩
    · exact ⟨[LoopEvent.setfsuid 0, LoopEvent.setfsgid s.diskGID,
        LoopEvent.attachLoop, LoopEvent.setfsgid (ids.gid : Int),
        LoopEvent.setfsuid (ids.uid : Int)],
        by simp [loopAttach, hd, hat], by simp [hasOpenEvent]⟩

/-- Every LoopDevice call either errors out before the escalation point
with its state untouched and neither an escalation nor a lookup in its
trace, or runs the attach phase on entry events that contain neither an
escalation nor a lookup. -/
theorem LoopDevice_shape (o : LoopOracle) (a : LoopArgs) (ids : ProcIds)
    (s : LoopState) :
    ((LoopDevice o a ids s).state = s ∧
      LoopEvent.setfsuid 0 ∉ (LoopDevice o a ids s).events ∧
      LoopEvent.lookupDiskGroup ∉ (LoopDevice o a ids s).events) ∨
    (∃ evs, LoopDevice o a ids s = loopAttach o ids s evs ∧
      LoopEvent.setfsuid 0 ∉ evs ∧ LoopEvent.lookupDiskGroup ∉ evs) := by
  rw [LoopDevice]
  by_cases hpre : hasPre a.image procSelfFd = true
  · rw [if_pos hpre]
    rcases hparse : parseUint32 (trimPre a.image procSelfFd) with _ | fd
    · exact Or.inl ⟨rfl, by simp, by simp⟩
    · exact Or.inr ⟨[LoopEvent.adoptFd fd], rfl, by simp, by simp⟩
  · rw [if_neg hpre]
    by_cases hopen : o.openOk = true
    · rw [if_pos hopen]
      exact Or.inr ⟨[LoopEvent.openFile a.image a.mode], rfl, by simp, by simp⟩
    · rw [if_neg hopen]
      exact Or.inl ⟨rfl, by simp, by simp⟩

/-- A LoopDevice call entered with the diskGID cache already resolved
performs no group lookup and keeps the cached value, whatever its image
dispatch and however its kernel calls turn out. -/
theorem LoopDevice_cached (o : LoopOracle) (a : LoopArgs) (ids : ProcIds)
    (s : LoopState) (h : s.diskGID ≠ -1) :
    LoopEvent.lookupDiskGroup ∉ (LoopDevice o a ids s).events ∧
    (LoopDevice o a ids s).state.diskGID = s.diskGID := by
  rcases LoopDevice_shape o a ids s with ⟨hs, _, hnl⟩ | ⟨evs, hDev, _, hnl⟩
  · exact ⟨hnl, by rw [hs]⟩
  · rw [hDev]
    rcases loopAttach_cached o ids s evs h with ⟨hgid, hev⟩
    refine ⟨?_, hgid⟩
    rw [hev]
    simp [hnl]

/-- C1 (counterexample): a successful LoopDevice call entered with
effective fs-uid/fs-gid 1000 (set, for example, by an earlier SetFsID
request) in a process whose real uid and gid are 0 leaves fs-uid 0 after
the call — the deferred restore sets os.Getuid()/os.Getgid(), not the
values the identity had immediately before the call. -/
theorem C1_loop_fsid_not_pre_call_cex :
    (LoopDevice
      { openOk := true, grDisk := some 6, attachOk := true, attachDev := 3 }
      { image := "/img.sif", mode := 2, maxDevices := 256, shared := false }
      { uid := 0, gid := 0 }
      { fsuid := 1000, fsgid := 1000, diskGID := 5 }).ret = none ∧
    (LoopDevice
      { openOk := true, grDisk := some 6, attachOk := true, attachDev := 3 }
      { image := "/img.sif", mode := 2, maxDevices := 256, shared := false }
      { uid := 0, gid := 0 }
      { fsuid := 1000, fsgid := 1000, diskGID := 5 }).state.fsuid ≠ 1000 := by
  decide

/-- C1 (amended): for every LoopDevice call, a call that errors out before
the escalation point leaves the whole state untouched, and a call that
reaches the escalation point leaves, on every exit path, effective
fs-uid/fs-gid equal to the process's real uid and gid — hence equal to
their pre-call values exactly in the normal case where the pre-call fs
identity was the real identity. -/
theorem C1_loop_fsid_restored_to_real (o : LoopOracle) (a : LoopArgs)
    (ids : ProcIds) (s : LoopState) :
    (LoopEvent.setfsuid 0 ∈ (LoopDevice o a ids s).events →
      (LoopDevice o a ids s).state.fsuid = (ids.uid : Int) ∧
      (LoopDevice o a ids s).state.fsgid = (ids.gid : Int)) ∧
    (LoopEvent.setfsuid 0 ∉ (LoopDevice o a ids s).events →
      (LoopDevice o a ids s).state = s) ∧
    (s.fsuid = (ids.uid : Int) → s.fsgid = (ids.gid : Int) →
      (LoopDevice o a ids s).state.fsuid = s.fsuid ∧
      (LoopDevice o a ids s).state.fsgid = s.fsgid) := by
  rcases LoopDevice_shape o a ids s with ⟨hs, hns, _⟩ | ⟨evs, hDev, _, _⟩
  · refine ⟨fun hmem => absurd hmem hns, fun _ => hs, fun h1 h2 => ?_⟩
    rw [hs]
    exact ⟨rfl, rfl⟩
  · rcases loopAttach_fsids o ids s evs with ⟨hu, hg, hmem⟩
    rw [hDev]
    exact ⟨fun _ => ⟨hu, hg⟩, fun hn => absurd hmem hn,
      fun h1 h2 => ⟨by rw [hu, h1], by rw [hg, h2]⟩⟩

/-- Witness for C1's amended theorem: with pre-call fs identity equal to
the real identity (both 0) the bracket does restore the pre-call values. -/
theorem C1_loop_fsid_restored_witness :
    (LoopDevice
      { openOk := true, grDisk := some 6, attachOk := true, attachDev := 3 }
      { image := "/img.sif", mode := 2, maxDevices := 256, shared := false }
      { uid := 0, gid := 0 }
      { fsuid := 0, fsgid := 0, diskGID := 5 }).state.fsuid = 0 ∧
    (LoopDevice
      { openOk := true, grDisk := some 6, attachOk := true, attachDev := 3 }
      { image := "/img.sif", mode := 2, maxDevices := 256, shared := false }
      { uid := 0, gid := 0 }
      { fsuid := 0, fsgid := 0, diskGID := 5 }).state.fsgid = 0 :=
  (C1_loop_fsid_restored_to_real
    { openOk := true, grDisk := some 6, attachOk := true, attachDev := 3 }
    { image := "/img.sif", mode := 2, maxDevices := 256, shared := false }
    { uid := 0, gid := 0 }
    { fsuid := 0, fsgid := 0, diskGID := 5 }).2.2 rfl rfl

/-- C4 (counterexample): the image reference built from the reserved
prefix and the decimal integer 4294967296 (one past the largest 32-bit
value) does not adopt descriptor 4294967296 — strconv.ParseUint with bit
size 32 rejects it, so the call returns the request error having performed
nothing at all. -/
theorem C4_fd_not_32bit_cex :
    (LoopDevice
      { openOk := true, grDisk := some 6, attachOk := true, attachDev := 3 }
      { image := "/proc/self/fd/4294967296", mode := 2, maxDevices := 256,
        shared := false }
      { uid := 0, gid := 0 }
      { fsuid := 0, fsgid := 0, diskGID := 5 }).ret =
      some (GoErr.errorf "failed to convert image file descriptor") ∧
    (LoopDevice
      { openOk := true, grDisk := some 6, attachOk := true, attachDev := 3 }
      { image := "/proc/self/fd/4294967296", mode := 2, maxDevices := 256,
        shared := false }
      { uid := 0, gid := 0 }
      { fsuid := 0, fsgid := 0, diskGID := 5 }).events = [] := by
  decide

/-- C4 (amended): an image reference equal to the reserved descriptor
prefix followed by a decimal integer representable in 32 bits adopts that
descriptor with no filesystem open; a suffix after the prefix that is not
such an integer (non-numeric, empty, or at least 2^32) makes the call
return the request error before any open, lookup or attach; any image not
starting with the prefix is opened as a filesystem path with the requested
mode. -/
theorem C4_image_reference_dispatch (o : LoopOracle) (a : LoopArgs)
    (ids : ProcIds) (s : LoopState) (n : Nat) :
    (hasPre a.image procSelfFd = true →
      parseUint32 (trimPre a.image procSelfFd) = some n →
      LoopEvent.adoptFd n ∈ (LoopDevice o a ids s).events ∧
      hasOpenEvent (LoopDevice o a ids s).events = false) ∧
    (hasPre a.image procSelfFd = true →
      parseUint32 (trimPre a.image procSelfFd) = none →
      (LoopDevice o a ids s).ret =
        some (GoErr.errorf "failed to convert image file descriptor") ∧
      (LoopDevice o a ids s).events = []) ∧
    (hasPre a.image procSelfFd = false →
      LoopEvent.openFile a.image a.mode ∈ (LoopDevice o a ids s).events) := by
  refine ⟨?_, ?_, ?_⟩
  · intro hpre hparse
    have hDev : LoopDevice o a ids s = loopAttach o ids s [LoopEvent.adoptFd n] := by
      rw [LoopDevice, if_pos hpre, hparse]
    rcases loopAttach_tail o ids s [LoopEvent.adoptFd n] with ⟨tail, hev, hop⟩
    rw [hDev, hev]
    constructor
    · simp
    · simp only [hasOpenEvent, List.any_append, List.any_cons, List.any_nil] at hop ⊢
      simp [hop]
  · intro hpre hparse
    rw [LoopDevice, if_pos hpre, hparse]
    exact ⟨rfl, rfl⟩
  · intro hpre
    rw [LoopDevice, if_neg (by simp [hpre])]
    by_cases hopen : o.openOk = true
    · rw [if_pos hopen]
      rcases loopAttach_tail o ids s [LoopEvent.openFile a.image a.mode] with
        ⟨tail, hev, _⟩
      rw [hev]
      simp
    · rw [if_neg hopen]
      simp

/-- Witness for C4 at the spec's instance: image reference
/proc/self/fd/7 adopts descriptor 7 and no path open appears in the
trace. -/
theorem C4_image_reference_dispatch_witness :
    LoopEvent.adoptFd 7 ∈
      (LoopDevice
        { openOk := true, grDisk := some 6, attachOk := true, attachDev := 3 }
        { image := "/proc/self/fd/7", mode := 2, maxDevices := 256,
          shared := false }
        { uid := 0, gid := 0 }
        { fsuid := 0, fsgid := 0, diskGID := 5 }).events ∧
    hasOpenEvent
      (LoopDevice
        { openOk := true, grDisk := some 6, attachOk := true, attachDev := 3 }
        { image := "/proc/self/fd/7", mode := 2, maxDevices := 256,
          shared := false }
        { uid := 0, gid := 0 }
        { fsuid := 0, fsgid := 0, diskGID := 5 }).events = false :=
  (C4_image_reference_dispatch
    { openOk := true, grDisk := some 6, attachOk := true, attachDev := 3 }
    { image := "/proc/self/fd/7", mode := 2, maxDevices := 256,
      shared := false }
    { uid := 0, gid := 0 }
    { fsuid := 0, fsgid := 0, diskGID := 5 } 7).1 (by decide) (by decide)

/-- C5: a LoopDevice call entered with the diskGID cache already resolved
performs no group lookup and observes the cached value; and a call entered
with the cache unresolved that reaches the escalation point caches the
lookup result (the resolved disk gid on success, 0 on failure), after
which a second call — under a possibly different group database — performs
no lookup and observes the same cached value. -/
theorem C5_diskGID_resolved_once (o1 o2 : LoopOracle) (a1 a2 : LoopArgs)
    (ids : ProcIds) (s : LoopState) :
    (s.diskGID ≠ -1 →
      LoopEvent.lookupDiskGroup ∉ (LoopDevice o1 a1 ids s).events ∧
      (LoopDevice o1 a1 ids s).state.diskGID = s.diskGID) ∧
    (s.diskGID = -1 →
      LoopEvent.setfsuid 0 ∈ (LoopDevice o1 a1 ids s).events →
      (LoopDevice o1 a1 ids s).state.diskGID =
        (match o1.grDisk with | some g => ((g : Nat) : Int) | none => 0) ∧
      (LoopDevice o1 a1 ids s).state.diskGID ≠ -1 ∧
      LoopEvent.lookupDiskGroup ∉
        (LoopDevice o2 a2 ids (LoopDevice o1 a1 ids s).state).events ∧
      (LoopDevice o2 a2 ids (LoopDevice o1 a1 ids s).state).state.diskGID =
        (LoopDevice o1 a1 ids s).state.diskGID) := by
  constructor
  · intro hne
    exact LoopDevice_cached o1 a1 ids s hne
  · intro hfresh hesc
    rcases LoopDevice_shape o1 a1 ids s with ⟨_, hns, _⟩ | ⟨evs, hDev, _, _⟩
    · exact absurd hesc hns
    · rcases loopAttach_fresh o1 ids s evs hfresh with ⟨hval, hpos, _⟩
      have hne1 : (LoopDevice o1 a1 ids s).state.diskGID ≠ -1 := by
        rw [hDev]
        omega
      rcases LoopDevice_cached o2 a2 ids (LoopDevice o1 a1 ids s).state hne1
        with ⟨hnl2, heq2⟩
      rw [hDev]
      exact ⟨hval, by rw [← hDev]; exact hne1, by rw [← hDev]; exact hnl2,
        by rw [← hDev]; exact heq2⟩

/-- Witness for C5: first call resolves the disk group to 6 and caches
it; the second call, under a group database that now answers 99, performs
no lookup and still observes 6. -/
theorem C5_diskGID_resolved_once_witness :
    (LoopDevice
      { openOk := true, grDisk := some 6, attachOk := true, attachDev := 3 }
      { image := "/img.sif", mode := 2, maxDevices := 256, shared := false }
      { uid := 0, gid := 0 }
      { fsuid := 0, fsgid := 0, diskGID := -1 }).state.diskGID = 6 ∧
    LoopEvent.lookupDiskGroup ∉
      (LoopDevice
        { openOk := true, grDisk := some 99, attachOk := true, attachDev := 4 }
        { image := "/img.sif", mode := 2, maxDevices := 256, shared := false }
        { uid := 0, gid := 0 }
        (LoopDevice
          { openOk := true, grDisk := some 6, attachOk := true, attachDev := 3 }
          { image := "/img.sif", mode := 2, maxDevices := 256, shared := false }
          { uid := 0, gid := 0 }
          { fsuid := 0, fsgid := 0, diskGID := -1 }).state).events ∧
    (LoopDevice
      { openOk := true, grDisk := some 99, attachOk := true, attachDev := 4 }
      { image := "/img.sif", mode := 2, maxDevices := 256, shared := false }
      { uid := 0, gid := 0 }
      (LoopDevice
        { openOk := true, grDisk := some 6, attachOk := true, attachDev := 3 }
        { image := "/img.sif", mode := 2, maxDevices := 256, shared := false }
        { uid := 0, gid := 0 }
        { fsuid := 0, fsgid := 0, diskGID := -1 }).state).state.diskGID = 6 := by
  have h := (C5_diskGID_resolved_once
    { openOk := true, grDisk := some 6, attachOk := true, attachDev := 3 }
    { openOk := true, grDisk := some 99, attachOk := true, attachDev := 4 }
    { image := "/img.sif", mode := 2, maxDevices := 256, shared := false }
    { image := "/img.sif", mode := 2, maxDevices := 256, shared := false }
    { uid := 0, gid := 0 }
    { fsuid := 0, fsgid := 0, diskGID := -1 }).2 rfl (by decide)
  exact ⟨h.1, h.2.2.1, by rw [h.2.2.2]; exact h.1⟩

/-- An iteration returns the collected-status success result only from a
SIGCHLD whose non-blocking reap returned exactly the tracked pid, with the
returned status the one that reap collected (the tracked pid being a real
child pid, nonzero). -/
theorem monitorStep_ok_inv (pid status : Nat) (hpid : pid ≠ 0) (e : SigEvent)
    (st : Nat) (h : (monitorStep pid status e).2.2 = some (MonResult.ok st)) :
    e.sig = SIGCHLD ∧ e.waitRes = some (pid, st) := by
  by_cases hs : e.sig = SIGCHLD
  · rcases hw : e.waitRes with _ | ⟨wpid, st0⟩
    · simp [monitorStep, hs, hw] at h
    · by_cases hwp : wpid = pid
      · subst hwp
        simp [monitorStep, hs, hw, hpid] at h
        subst h
        exact ⟨hs, rfl⟩
      · simp [monitorStep, hs, hw, hwp] at h
  · by_cases hk : e.killOk = true <;> simp [monitorStep, hs, hk] at h

/-- A run of the monitoring loop that returns the success result found a
SIGCHLD in the stream whose reap returned the tracked pid with that
status. -/
theorem monitor_ok_reap_source (pid : Nat) (hpid : pid ≠ 0) :
    ∀ (evs : List SigEvent) (status st : Nat),
      (MonitorContainer pid status evs).2 = some (MonResult.ok st) →
      ∃ e ∈ evs, e.sig = SIGCHLD ∧ e.waitRes = some (pid, st) := by
  intro evs
  induction evs with
  | nil =>
    intro status st h
    simp [MonitorContainer] at h
  | cons e rest ih =>
    intro status st h
    rw [MonitorContainer] at h
    rcases hstep : monitorStep pid status e with ⟨evs0, st1, r⟩
    rw [hstep] at h
    rcases r with _ | r0
    · simp only at h
      rcases ih st1 st h with ⟨e1, he1, hprop⟩
      exact ⟨e1, List.mem_cons_of_mem e he1, hprop⟩
    · simp only [Option.some.injEq] at h
      refine ⟨e, List.mem_cons_self e rest, ?_⟩
      have hres : (monitorStep pid status e).2.2 = some (MonResult.ok st) := by
        rw [hstep, h]
      exact monitorStep_ok_inv pid status hpid e st hres

/-- C8: in the image-build engine's monitoring loop, a received signal
other than SIGCHLD produces exactly a kill forwarding it to the tracked
pid, continuing the loop when the kill succeeds; SIGCHLD produces exactly
a non-blocking reap attempt; a reap answering with a pid other than the
tracked one continues the loop; an iteration returns the collected wait
status exactly when the reap answered the tracked pid; and a run of the
whole loop that returns the success status found a SIGCHLD in its stream
whose reap matched the tracked pid with that status. -/
theorem C8_monitor_loop_behavior (pid status st : Nat) (e : SigEvent)
    (evs : List SigEvent) (hpid : pid ≠ 0) :
    (e.sig ≠ SIGCHLD →
      (monitorStep pid status e).1 = [MonEvent.forward e.sig] ∧
      (e.killOk = true → (monitorStep pid status e).2.2 = none)) ∧
    (e.sig = SIGCHLD → (monitorStep pid status e).1 = [MonEvent.reapAttempt]) ∧
    (∀ wpid st0, e.sig = SIGCHLD → e.waitRes = some (wpid, st0) →
      wpid ≠ pid → (monitorStep pid status e).2.2 = none) ∧
    ((monitorStep pid status e).2.2 = some (MonResult.ok st) ↔
      e.sig = SIGCHLD ∧ e.waitRes = some (pid, st)) ∧
    ((MonitorContainer pid status evs).2 = some (MonResult.ok st) →
      ∃ e1 ∈ evs, e1.sig = SIGCHLD ∧ e1.waitRes = some (pid, st)) := by
  refine ⟨?_, ?_, ?_, ⟨monitorStep_ok_inv pid status hpid e st, ?_⟩, ?_⟩
  · intro hs
    by_cases hk : e.killOk = true
    · constructor
      · simp [monitorStep, hs, hk]
      · intro _
        simp [monitorStep, hs, hk]
    · constructor
      · simp [monitorStep, hs, hk]
      · intro h
        exact absurd h hk
  · intro hs
    rcases hw : e.waitRes with _ | ⟨wpid, st0⟩
    · simp [monitorStep, hs, hw]
    · by_cases hwp : wpid = pid <;> simp [monitorStep, hs, hw, hwp]
  · intro wpid st0 hs hw hwp
    simp [monitorStep, hs, hw, hwp]
  · intro hpair
    rcases hpair with ⟨hs, hw⟩
    simp [monitorStep, hs, hw, hpid]
  · exact monitor_ok_reap_source pid hpid evs status st

/-- Witness for C8: a SIGTERM is forwarded; a SIGCHLD whose reap answers
a different pid continues the loop; a SIGCHLD whose reap answers the
tracked pid 10 returns its collected status 9. -/
theorem C8_monitor_loop_behavior_witness :
    (monitorStep 10 0 { sig := 15, waitRes := none, killOk := true }).1 =
      [MonEvent.forward 15] ∧
    (monitorStep 10 0 { sig := 17, waitRes := some (11, 5), killOk := true }).2.2 = none ∧
    (monitorStep 10 5 { sig := 17, waitRes := some (10, 9), killOk := true }).2.2 =
      some (MonResult.ok 9) := by
  refine ⟨?_, ?_, ?_⟩
  · exact ((C8_monitor_loop_behavior 10 0 9 { sig := 15, waitRes := none, killOk := true }
      [] (by decide)).1 (by decide)).1
  · exact (C8_monitor_loop_behavior 10 0 9 { sig := 17, waitRes := some (11, 5), killOk := true }
      [] (by decide)).2.2.1 11 5 rfl rfl (by decide)
  · exact (C8_monitor_loop_behavior 10 5 9 { sig := 17, waitRes := some (10, 9), killOk := true }
      [] (by decide)).2.2.2.1.mpr ⟨rfl, rfl⟩
